import Mathlib

/-!
Verification of the AI-Quiz-Gen quiz-lifecycle pipeline.

The Python sources (`app/utils.py`, `app/quiz_generator.py`, `app/chunker.py`)
are shallowly embedded below.  Python dictionaries holding quiz content are
modelled as structures with `Option` fields (a missing dictionary key is
`none`); Python strings are Lean `String`s; Python float percentages are
modelled as rationals; filesystem and network effects are modelled by
explicit oracle parameters describing the outcome of each effectful call.
-/

namespace QuizGen

/-- ASCII lowering of one character, modelling Python `str.lower` on the
ASCII range used by the quiz data (answer letters, True/False literals). -/
def lowerChar (c : Char) : Char :=
  if 'A' ≤ c ∧ c ≤ 'Z' then Char.ofNat (c.toNat + 32) else c

/-- `str.lower` over a whole string. -/
def pyLower (s : String) : String :=
  ⟨s.data.map lowerChar⟩

/-- Characters removed by Python `str.strip` with no argument. -/
def isPySpace (c : Char) : Bool :=
  c = ' ' ∨ c = '\t' ∨ c = '\n' ∨ c = '\r' ∨ c = '\x0b' ∨ c = '\x0c'

/-- `str.strip`: drop leading and trailing whitespace. -/
def pyStrip (s : String) : String :=
  ⟨((s.data.dropWhile isPySpace).reverse.dropWhile isPySpace).reverse⟩

/-- The `mcq` sub-dictionary of a quiz record. -/
structure MCQ where
  question : Option String
  options : Option (List String)
  correct_answer : Option String
  explanation : Option String
deriving DecidableEq

/-- The `true_false` sub-dictionary of a quiz record. -/
structure TrueFalse where
  question : Option String
  correct_answer : Option String
  explanation : Option String
deriving DecidableEq

/-- One element of the `pairs` list of a matching question. -/
structure MatchPair where
  term : Option String
  definition : Option String
deriving DecidableEq

/-- The `matching` sub-dictionary of a quiz record. -/
structure Matching where
  question : Option String
  pairs : Option (List MatchPair)
  explanation : Option String
deriving DecidableEq

/-- The `fill_blank` sub-dictionary of a quiz record. -/
structure FillBlank where
  question : Option String
  correct_answer : Option String
  explanation : Option String
deriving DecidableEq

/-- A quiz record: the dictionary produced by `generate_quiz_questions` /
`generate_quiz_batch`, also covering error-tagged records (`error`,
`raw_content` keys). -/
structure QuizData where
  topic : Option String
  difficulty : Option String
  mcq : Option MCQ
  true_false : Option TrueFalse
  matching : Option Matching
  fill_blank : Option FillBlank
  chunk_index : Option Nat
  chunk_preview : Option String
  raw_content : Option String
  error : Option String
deriving DecidableEq

/-- The empty dictionary `{}` (falsy in Python). -/
def emptyQuizData : QuizData :=
  ⟨none, none, none, none, none, none, none, none, none, none⟩

/-- The user-submitted answers dictionary passed to `calculate_quiz_score`:
string answers for `mcq`, `true_false` and `fill_blank`, and a
term-to-definition dictionary (modelled as an association list) for
`matching`. -/
structure Answers where
  mcq : Option String
  true_false : Option String
  matching : Option (List (String × String))
  fill_blank : Option String
deriving DecidableEq

/-- Result dictionary of `validate_quiz_structure`. -/
structure ValidationResult where
  is_valid : Bool
  errors : List String
  warnings : List String
deriving DecidableEq

/-- `validate_quiz_structure` from `app/utils.py`: required-field errors,
variant-presence error, and MCQ / TrueFalse soft warnings. -/
def validate_quiz_structure (quiz_data : QuizData) : ValidationResult :=
  let topicErrs := if quiz_data.topic = none then ["Missing required field: topic"] else []
  let diffErrs := if quiz_data.difficulty = none then ["Missing required field: difficulty"] else []
  let noTypes := quiz_data.mcq = none ∧ quiz_data.true_false = none ∧
    quiz_data.matching = none ∧ quiz_data.fill_blank = none
  let typeErrs := if noTypes then ["No question types found"] else []
  let mcqWarns :=
    match quiz_data.mcq with
    | none => []
    | some mcq =>
      if ¬ (mcq.question.isSome ∧ mcq.options.isSome ∧ mcq.correct_answer.isSome) then
        ["MCQ missing required fields"]
      else if (mcq.options.getD []).length ≠ 4 then
        ["MCQ should have exactly 4 options"]
      else []
  let tfWarns :=
    match quiz_data.true_false with
    | none => []
    | some tf =>
      if ¬ (tf.question.isSome ∧ tf.correct_answer.isSome) then
        ["True/False question missing required fields"]
      else if tf.correct_answer.getD "" ≠ "True" ∧ tf.correct_answer.getD "" ≠ "False" then
        ["True/False answer should be \x27True\x27 or \x27False\x27"]
      else []
  { is_valid := quiz_data.topic.isSome && quiz_data.difficulty.isSome && !(decide noTypes),
    errors := topicErrs ++ diffErrs ++ typeErrs,
    warnings := mcqWarns ++ tfWarns }

/-- One entry of the `detailed_results` dictionary of a score result. -/
structure DetailEntry where
  correct : Bool
  feedback : String
  explanation : Option String
deriving DecidableEq

/-- The `detailed_results` dictionary, keyed by the four variant kinds. -/
structure DetailedResults where
  mcq : Option DetailEntry
  true_false : Option DetailEntry
  matching : Option DetailEntry
  fill_blank : Option DetailEntry
deriving DecidableEq

/-- Result dictionary of `calculate_quiz_score`.  The Python float
`score_percentage` is modelled as a rational. -/
structure ScoreResult where
  total_questions : Nat
  correct_answers : Nat
  score_percentage : ℚ
  detailed_results : DetailedResults
  feedback : List String
deriving DecidableEq

/-- The `# score mcq` block of `calculate_quiz_score`. -/
def scoreMcq (answers : Answers) (quiz_data : QuizData) (s : ScoreResult) : ScoreResult :=
  match quiz_data.mcq with
  | none => s
  | some mcq =>
    let user_answer := answers.mcq.getD ""
    let correct_answer := mcq.correct_answer.getD ""
    if pyLower user_answer = pyLower correct_answer then
      { s with total_questions := s.total_questions + 1,
               correct_answers := s.correct_answers + 1,
               detailed_results := { s.detailed_results with
                 mcq := some ⟨true, "Correct!", none⟩ } }
    else
      { s with total_questions := s.total_questions + 1,
               detailed_results := { s.detailed_results with
                 mcq := some ⟨false,
                   "Incorrect. The correct answer is " ++ correct_answer ++ ".",
                   some (mcq.explanation.getD "")⟩ } }

/-- The `# score true/fals` block of `calculate_quiz_score`. -/
def scoreTrueFalse (answers : Answers) (quiz_data : QuizData) (s : ScoreResult) : ScoreResult :=
  match quiz_data.true_false with
  | none => s
  | some tf =>
    let user_answer := answers.true_false.getD ""
    let correct_answer := tf.correct_answer.getD ""
    if pyLower user_answer = pyLower correct_answer then
      { s with total_questions := s.total_questions + 1,
               correct_answers := s.correct_answers + 1,
               detailed_results := { s.detailed_results with
                 true_false := some ⟨true, "Correct!", none⟩ } }
    else
      { s with total_questions := s.total_questions + 1,
               detailed_results := { s.detailed_results with
                 true_false := some ⟨false,
                   "Incorrect. The correct answer is " ++ correct_answer ++ ".",
                   some (tf.explanation.getD "")⟩ } }

/-- How many of the record pairs have a matching submitted definition:
`user_answers.get(term) == pair.get("definition", "")`, exact string
equality (`None` for an absent term never equals a string). -/
def matchedCount (user_answers : List (String × String)) (pairs : List MatchPair) : Nat :=
  pairs.countP (fun pair => List.lookup (pair.term.getD "") user_answers
    = some (pair.definition.getD ""))

/-- The `# score matching` block of `calculate_quiz_score`. -/
def scoreMatching (answers : Answers) (quiz_data : QuizData) (s : ScoreResult) : ScoreResult :=
  match quiz_data.matching with
  | none => s
  | some matching =>
    let user_answers := answers.matching.getD []
    let pairs := matching.pairs.getD []
    let correct_matches := matchedCount user_answers pairs
    let total_pairs := pairs.length
    if correct_matches = total_pairs then
      { s with total_questions := s.total_questions + 1,
               correct_answers := s.correct_answers + 1,
               detailed_results := { s.detailed_results with
                 matching := some ⟨true, "Perfect matching!", none⟩ } }
    else
      { s with total_questions := s.total_questions + 1,
               detailed_results := { s.detailed_results with
                 matching := some ⟨false,
                   "Partially correct. You got " ++ toString correct_matches ++ "/"
                     ++ toString total_pairs ++ " matches right.",
                   some (matching.explanation.getD "")⟩ } }

/-- The `fill_blank` block of `calculate_quiz_score`. -/
def scoreFillBlank (answers : Answers) (quiz_data : QuizData) (s : ScoreResult) : ScoreResult :=
  match quiz_data.fill_blank with
  | none => s
  | some fill =>
    let user_answer := answers.fill_blank.getD ""
    let correct_answer := fill.correct_answer.getD ""
    if pyStrip (pyLower user_answer) = pyStrip (pyLower correct_answer) then
      { s with total_questions := s.total_questions + 1,
               correct_answers := s.correct_answers + 1,
               detailed_results := { s.detailed_results with
                 fill_blank := some ⟨true, "Correct!", none⟩ } }
    else
      { s with total_questions := s.total_questions + 1,
               detailed_results := { s.detailed_results with
                 fill_blank := some ⟨false,
                   "Incorrect. The correct answer is \x27" ++ correct_answer ++ "\x27.",
                   some (fill.explanation.getD "")⟩ } }

/-- The closing `# generate overall feedback` chain of `calculate_quiz_score`. -/
def overallFeedback (pct : ℚ) : String :=
  if pct ≥ 90 then "Excellent! You have a strong understanding of this topic."
  else if pct ≥ 70 then "Good job! You understand most of the concepts."
  else if pct ≥ 50 then "Fair performance. Consider reviewing the material."
  else "You may need to review this topic more thoroughly."

/-- `calculate_quiz_score` from `app/utils.py`: the four variant blocks in
source order, then the guarded percentage, then the qualitative feedback. -/
def calculate_quiz_score (answers : Answers) (quiz_data : QuizData) : ScoreResult :=
  let s0 : ScoreResult := ⟨0, 0, 0, ⟨none, none, none, none⟩, []⟩
  let s := scoreFillBlank answers quiz_data
    (scoreMatching answers quiz_data
      (scoreTrueFalse answers quiz_data
        (scoreMcq answers quiz_data s0)))
  let pct : ℚ :=
    if 0 < s.total_questions then
      ((s.correct_answers : ℚ) / (s.total_questions : ℚ)) * 100
    else 0
  { s with score_percentage := pct,
           feedback := s.feedback ++ [overallFeedback pct] }

/-- Outcome of the external `ContentGenerationService` call inside
`generate_quiz_questions`: either the reply text, or the message of the
exception the call raised. -/
def ServiceOutcome := Except String String

/-- `generate_quiz_questions` from `app/quiz_generator.py`, parametrised by
the outcome of the service call and by the JSON parser (`json.loads` of an
object reply; `parse = none` models a `JSONDecodeError`).  Every control
path returns a dictionary: no exception escapes this boundary. -/
def generate_quiz_questions (svc : Except String String)
    (parse : String → Option QuizData) : QuizData :=
  match svc with
  | Except.error e =>
    { emptyQuizData with error := some ("Failed to generate quiz: " ++ e) }
  | Except.ok quiz_content =>
    match parse quiz_content with
    | some quiz_data => quiz_data
    | none =>
      { emptyQuizData with raw_content := some quiz_content,
                           error := some "Failed to parse JSON" }

/-- The chunk preview attached by `generate_quiz_batch`:
`chunk[:200] + "..." if len(chunk) > 200 else chunk`. -/
def chunkPreview (chunk : String) : String :=
  if 200 < chunk.length then chunk.take 200 ++ "..." else chunk

/-- The body of one iteration of the `generate_quiz_batch` loop: call the
generator (abstracted as `gen`), then either annotate the successful quiz
with its chunk index and preview, or build the failure placeholder.  The
Python success test is `quiz and isinstance(quiz, dict) and 'error' not in
quiz`; an empty dictionary is falsy. -/
def processChunk (gen : String → String → String → QuizData)
    (i : Nat) (chunk topic difficulty : String) : QuizData :=
  let quiz := gen chunk topic difficulty
  if quiz ≠ emptyQuizData ∧ quiz.error = none then
    { quiz with chunk_index := some i, chunk_preview := some (chunkPreview chunk) }
  else
    { emptyQuizData with
        chunk_index := some i,
        chunk_preview := some (chunkPreview chunk),
        topic := some topic,
        difficulty := some difficulty,
        error := some "Quiz generation failed for this chunk" }

/-- The `for i, chunk in enumerate(chunks)` loop of `generate_quiz_batch`,
with `topics[i] if i < len(topics) else "General"` rendered as `List.getD`. -/
def generateBatchLoop (gen : String → String → String → QuizData)
    (topics difficulties : List String) (i : Nat) : List String → List QuizData
  | [] => []
  | chunk :: rest =>
    processChunk gen i chunk (topics.getD i "General") (difficulties.getD i "Intermediate")
      :: generateBatchLoop gen topics difficulties (i + 1) rest

/-- `generate_quiz_batch` from `app/quiz_generator.py`.  `none` for
`topics` / `difficulties` models the Python `None` default, replaced by
`["General"] * len(chunks)` / `["Intermediate"] * len(chunks)`. -/
def generate_quiz_batch (gen : String → String → String → QuizData)
    (chunks : List String) (topics difficulties : Option (List String)) : List QuizData :=
  let ts := topics.getD (List.replicate chunks.length "General")
  let ds := difficulties.getD (List.replicate chunks.length "Intermediate")
  generateBatchLoop gen ts ds 0 chunks

/-- JSON values, for the structured export artifact. -/
inductive JsonVal where
  | str (s : String)
  | num (n : Nat)
  | arr (elems : List JsonVal)
  | obj (members : List (String × JsonVal))

/-- One object member per present string key (a `none` field is an absent
dictionary key and is not serialized). -/
def strMember (key : String) : Option String → List (String × JsonVal)
  | none => []
  | some v => [(key, JsonVal.str v)]

/-- Serialization of the `mcq` sub-dictionary. -/
def mcqToJson (mcq : MCQ) : JsonVal :=
  JsonVal.obj (strMember "question" mcq.question
    ++ (match mcq.options with
        | none => []
        | some os => [("options", JsonVal.arr (os.map JsonVal.str))])
    ++ strMember "correct_answer" mcq.correct_answer
    ++ strMember "explanation" mcq.explanation)

/-- Serialization of the `true_false` sub-dictionary. -/
def tfToJson (tf : TrueFalse) : JsonVal :=
  JsonVal.obj (strMember "question" tf.question
    ++ strMember "correct_answer" tf.correct_answer
    ++ strMember "explanation" tf.explanation)

/-- Serialization of one matching pair. -/
def pairToJson (p : MatchPair) : JsonVal :=
  JsonVal.obj (strMember "term" p.term ++ strMember "definition" p.definition)

/-- Serialization of the `matching` sub-dictionary. -/
def matchingToJson (m : Matching) : JsonVal :=
  JsonVal.obj (strMember "question" m.question
    ++ (match m.pairs with
        | none => []
        | some ps => [("pairs", JsonVal.arr (ps.map pairToJson))])
    ++ strMember "explanation" m.explanation)

/-- Serialization of the `fill_blank` sub-dictionary. -/
def fillToJson (f : FillBlank) : JsonVal :=
  JsonVal.obj (strMember "question" f.question
    ++ strMember "correct_answer" f.correct_answer
    ++ strMember "explanation" f.explanation)

/-- Serialization of one quiz record: exactly its present keys. -/
def quizToJson (q : QuizData) : JsonVal :=
  JsonVal.obj (strMember "topic" q.topic
    ++ strMember "difficulty" q.difficulty
    ++ (match q.mcq with | none => [] | some m => [("mcq", mcqToJson m)])
    ++ (match q.true_false with | none => [] | some t => [("true_false", tfToJson t)])
    ++ (match q.matching with | none => [] | some m => [("matching", matchingToJson m)])
    ++ (match q.fill_blank with | none => [] | some f => [("fill_blank", fillToJson f)])
    ++ (match q.chunk_index with | none => [] | some i => [("chunk_index", JsonVal.num i)])
    ++ strMember "chunk_preview" q.chunk_preview
    ++ strMember "raw_content" q.raw_content
    ++ strMember "error" q.error)

/-- The document written by `export_quiz_to_json` in `app/quiz_generator.py`:
`json.dump` of the full record list, one array element per record. -/
def export_quiz_to_json (quiz_data : List QuizData) : JsonVal :=
  JsonVal.arr (quiz_data.map quizToJson)

/-- One entry of the batch list handed to the markdown exporter: a
dictionary, or any non-dictionary value (rendered identically whatever it
is, so its payload is irrelevant). -/
inductive BatchEntry where
  | dict (q : QuizData)
  | nonDict
deriving DecidableEq

/-- The placeholder section written for a falsy or non-dictionary entry. -/
def mdInvalidSection (i : Nat) : String :=
  "## Quiz " ++ toString (i + 1) ++ " - Invalid Quiz\n\n"
    ++ "**Error:** This quiz could not be generated properly.\n\n"
    ++ "---\n\n"

/-- The lettered MCQ option lines: `chr(97+j)`) per option. -/
def mdOptionLines (j : Nat) : List String → String
  | [] => ""
  | o :: rest =>
    String.singleton (Char.ofNat (97 + j)) ++ ") " ++ o ++ "\n" ++ mdOptionLines (j + 1) rest

/-- The `### 1. Multiple Choice Question` block (empty when `mcq` absent). -/
def mdMcqBlock (q : QuizData) : String :=
  match q.mcq with
  | none => ""
  | some mcq =>
    "### 1. Multiple Choice Question\n"
      ++ mcq.question.getD "N/A" ++ "\n\n"
      ++ mdOptionLines 0 (mcq.options.getD [])
      ++ "\n**Correct Answer:** " ++ mcq.correct_answer.getD "N/A" ++ "\n"
      ++ "**Explanation:** " ++ mcq.explanation.getD "N/A" ++ "\n\n"

/-- The `### 2. True/False Question` block (empty when `true_false` absent). -/
def mdTfBlock (q : QuizData) : String :=
  match q.true_false with
  | none => ""
  | some tf =>
    "### 2. True/False Question\n"
      ++ tf.question.getD "N/A" ++ "\n\n"
      ++ "**Correct Answer:** " ++ tf.correct_answer.getD "N/A" ++ "\n"
      ++ "**Explanation:** " ++ tf.explanation.getD "N/A" ++ "\n\n"

/-- The `- term → definition` pair lines of the matching block. -/
def mdPairLines : List MatchPair → String
  | [] => ""
  | p :: rest =>
    "- " ++ p.term.getD "N/A" ++ " → " ++ p.definition.getD "N/A" ++ "\n" ++ mdPairLines rest

/-- The `### 3. Matching Question` block (empty when `matching` absent). -/
def mdMatchingBlock (q : QuizData) : String :=
  match q.matching with
  | none => ""
  | some matching =>
    "### 3. Matching Question\n"
      ++ matching.question.getD "N/A" ++ "\n\n"
      ++ mdPairLines (matching.pairs.getD [])
      ++ "\n**Explanation:** " ++ matching.explanation.getD "N/A" ++ "\n\n"

/-- The `### 4. Fill in the Blank` block (empty when `fill_blank` absent). -/
def mdFillBlock (q : QuizData) : String :=
  match q.fill_blank with
  | none => ""
  | some fill =>
    "### 4. Fill in the Blank\n"
      ++ fill.question.getD "N/A" ++ "\n\n"
      ++ "**Correct Answer:** " ++ fill.correct_answer.getD "N/A" ++ "\n"
      ++ "**Explanation:** " ++ fill.explanation.getD "N/A" ++ "\n\n"

/-- The section written for one well-formed record: header, topic and
difficulty lines, then the four variant blocks in the fixed source order
MCQ, TrueFalse, Matching, FillBlank, then the horizontal rule. -/
def mdQuizSection (i : Nat) (q : QuizData) : String :=
  "## Quiz " ++ toString (i + 1) ++ "\n\n"
    ++ "**Topic:** " ++ q.topic.getD "N/A" ++ "\n"
    ++ "**Difficulty:** " ++ q.difficulty.getD "N/A" ++ "\n\n"
    ++ mdMcqBlock q ++ mdTfBlock q ++ mdMatchingBlock q ++ mdFillBlock q
    ++ "---\n\n"

/-- The section written for one batch entry: the Python guard
`if not quiz or not isinstance(quiz, dict)` routes non-dictionaries and the
falsy empty dictionary to the placeholder. -/
def mdEntrySection (i : Nat) : BatchEntry → String
  | BatchEntry.nonDict => mdInvalidSection i
  | BatchEntry.dict q =>
    if q = emptyQuizData then mdInvalidSection i else mdQuizSection i q

/-- The `for i, quiz in enumerate(quiz_data)` write loop of
`export_quiz_to_markdown`, accumulating the file contents. -/
def mdWriteLoop (i : Nat) (acc : String) : List BatchEntry → String
  | [] => acc
  | e :: rest => mdWriteLoop (i + 1) (acc ++ mdEntrySection i e) rest

/-- The document written by `export_quiz_to_markdown` in
`app/quiz_generator.py`. -/
def export_quiz_to_markdown (quiz_data : List BatchEntry) : String :=
  mdWriteLoop 0 "# Generated Quiz\n\n" quiz_data

/-- The list of per-entry sections, used to state properties of the
markdown document. -/
def mdSections (i : Nat) : List BatchEntry → List String
  | [] => []
  | e :: rest => mdEntrySection i e :: mdSections (i + 1) rest

/-- `create_quiz_package` from `app/utils.py`, its filesystem effects
abstracted as oracles: `mkdirOutcome` is the outcome of `os.makedirs`
(which may raise), `jsonWriteOk` / `mdWriteOk` are the boolean results of
`export_quiz_to_json` / `export_quiz_to_markdown` (which catch their own
exceptions and return a boolean), and `summaryWriteOutcome` is the outcome
of the unguarded `open` + `json.dump` of the summary artifact.  The result
is the returned directory path, or the exception that propagated. -/
def create_quiz_package (mkdirOutcome : Except String Unit)
    (jsonWriteOk mdWriteOk : Bool) (summaryWriteOutcome : Except String Unit)
    (output_dir : String) : Except String String :=
  match mkdirOutcome with
  | Except.error e => Except.error e
  | Except.ok _ =>
    let _ := jsonWriteOk
    let _ := mdWriteOk
    match summaryWriteOutcome with
    | Except.error e => Except.error e
    | Except.ok _ => Except.ok output_dir

/-- Prepend a character to the first fragment of a fragment list. -/
def consFirst (c : Char) : List (List Char) → List (List Char)
  | [] => [[c]]
  | p :: ps => (c :: p) :: ps

/-- Modelled from the spec: split a text at every occurrence of one
separator, keeping the separator as its own fragment so no character is
lost (spec 4.1: the splitter "attempts to break on paragraph boundaries
first, falling back in order to line breaks, sentence terminators, then
plain whitespace"). -/
def splitOnSep (sep : List Char) : List Char → List (List Char)
  | [] => [[]]
  | c :: cs =>
    if h : sep ≠ [] ∧ sep.isPrefixOf (c :: cs) then
      sep :: splitOnSep sep ((c :: cs).drop sep.length)
    else
      consFirst c (splitOnSep sep cs)
termination_by l => l.length
decreasing_by
  · simp only [List.length_drop, List.length_cons]
    have hs : 0 < sep.length := List.length_pos.mpr h.1
    omega
  · simp

/-- Modelled from the spec: the character-level fallback, cutting a
fragment into consecutive windows of at most `csize` characters. -/
def windowSplit (csize : Nat) (l : List Char) : List (List Char) :=
  if l = [] then []
  else if csize = 0 then [l]
  else l.take csize :: windowSplit csize (l.drop csize)
termination_by l.length
decreasing_by
  rename_i h hz
  simp only [List.length_drop]
  have : 0 < l.length := List.length_pos.mpr h
  omega

/-- Modelled from the spec: hierarchical splitting — a fragment within the
size bound is kept whole; a longer one is split on the current separator
and every piece is recursively subdivided with the remaining separators,
bottoming out in the character-level fallback. -/
def recSplit (csize : Nat) : List (List Char) → List Char → List (List Char)
  | [], l => windowSplit csize l
  | sep :: rest, l =>
    if l.length ≤ csize then [l]
    else ((splitOnSep sep l).map (recSplit csize rest)).flatten

/-- The last `n` characters of a fragment. -/
def takeLast (n : Nat) (l : List Char) : List Char :=
  (l.reverse.take n).reverse

/-- Modelled from the spec: merge consecutive fragments into chunks of
about `csize` characters; when a chunk is closed, the next chunk starts
with up to `coverlap` trailing characters of the closed chunk (spec 4.1:
"adjacent chunks repeat up to `chunk_overlap` characters of context at
their boundary"). -/
def mergeFrags (csize coverlap : Nat) (acc : List Char) : List (List Char) → List (List Char)
  | [] => if acc = [] then [] else [acc]
  | f :: fs =>
    if acc = [] ∨ acc.length + f.length ≤ csize then
      mergeFrags csize coverlap (acc ++ f) fs
    else
      acc :: mergeFrags csize coverlap (takeLast coverlap acc ++ f) fs

/-- The separator hierarchy passed by `chunk_text` in `app/chunker.py`:
`["\n\n", "\n", ".", " "]`. -/
def defaultSeparators : List (List Char) :=
  [['\n', '\n'], ['\n'], ['.'], [' ']]

/-- Modelled from the spec: `chunk_text` from `app/chunker.py` delegates to
an external recursive character splitter (`langchain`'s
`RecursiveCharacterTextSplitter`) whose code is not part of this
repository.  Following spec 4.1, the text (a list of characters) is
hierarchically split on the default separators, fragments exceeding
`chunk_size` are recursively subdivided, and the fragments are merged into
chunks with `chunk_overlap` characters of repeated context. -/
def chunk_text (text : List Char) (chunk_size : Nat := 750) (chunk_overlap : Nat := 100) :
    List (List Char) :=
  mergeFrags chunk_size chunk_overlap [] (recSplit chunk_size defaultSeparators text)

/-- The contribution of the MCQ block to `correct_answers`. -/
def mcqPoint (answers : Answers) (quiz_data : QuizData) : Nat :=
  match quiz_data.mcq with
  | none => 0
  | some mcq =>
    if pyLower (answers.mcq.getD "") = pyLower (mcq.correct_answer.getD "") then 1 else 0

/-- The contribution of the TrueFalse block to `correct_answers`. -/
def tfPoint (answers : Answers) (quiz_data : QuizData) : Nat :=
  match quiz_data.true_false with
  | none => 0
  | some tf =>
    if pyLower (answers.true_false.getD "") = pyLower (tf.correct_answer.getD "") then 1 else 0

/-- The contribution of the Matching block to `correct_answers`:
all-or-nothing. -/
def matchingPoint (answers : Answers) (quiz_data : QuizData) : Nat :=
  match quiz_data.matching with
  | none => 0
  | some m =>
    if matchedCount (answers.matching.getD []) (m.pairs.getD []) = (m.pairs.getD []).length
    then 1 else 0

/-- The contribution of the FillBlank block to `correct_answers`. -/
def fillPoint (answers : Answers) (quiz_data : QuizData) : Nat :=
  match quiz_data.fill_blank with
  | none => 0
  | some fill =>
    if pyStrip (pyLower (answers.fill_blank.getD ""))
        = pyStrip (pyLower (fill.correct_answer.getD "")) then 1 else 0

/-- Whitespace classification is unchanged by ASCII lowering: the letters
moved by `lowerChar` are not whitespace, and their lowered images are not
whitespace either. -/
theorem isPySpace_eq_false_of_33_le (c : Char) (h : 33 ≤ c.toNat) : isPySpace c = false := by
  simp only [isPySpace]
  have hs : c ≠ ' ' := by intro he; subst he; exact absurd h (by decide)
  have h1 : c ≠ '\t' := by intro he; subst he; exact absurd h (by decide)
  have h2 : c ≠ '\n' := by intro he; subst he; exact absurd h (by decide)
  have h3 : c ≠ '\r' := by intro he; subst he; exact absurd h (by decide)
  have h4 : c ≠ '\x0b' := by intro he; subst he; exact absurd h (by decide)
  have h5 : c ≠ '\x0c' := by intro he; subst he; exact absurd h (by decide)
  simp [hs, h1, h2, h3, h4, h5]

/-- Lowering a character does not change whether it is whitespace. -/
theorem isPySpace_lowerChar (c : Char) : isPySpace (lowerChar c) = isPySpace c := by
  unfold lowerChar
  split
  · rename_i h
    obtain ⟨ha, hz⟩ := h
    rw [Char.le_def] at ha hz
    have h1 : 65 ≤ c.toNat := ha
    have h2 : c.toNat ≤ 90 := hz
    have ht : (Char.ofNat (c.toNat + 32)).toNat = c.toNat + 32 := by
      have hv : c.toNat + 32 < 55296 := by omega
      simp only [Char.ofNat, Char.toNat] at hv ⊢
      rw [dif_pos (Or.inl hv)]
      rfl
    rw [isPySpace_eq_false_of_33_le _ (by omega),
        isPySpace_eq_false_of_33_le _ (by omega)]
  · rfl

/-- `s.lower().strip()` and `s.strip().lower()` agree, so the code's
lower-then-strip order implements trim-then-case-fold comparison. -/
theorem pyStrip_pyLower (s : String) : pyStrip (pyLower s) = pyLower (pyStrip s) := by
  have hc : (isPySpace ∘ lowerChar) = isPySpace := funext fun c => isPySpace_lowerChar c
  simp only [pyStrip, pyLower]
  rw [List.dropWhile_map, hc, ← List.map_reverse, List.dropWhile_map, hc, ← List.map_reverse]

/-- The initial score dictionary. -/
def initScore : ScoreResult := ⟨0, 0, 0, ⟨none, none, none, none⟩, []⟩

theorem scoreMcq_total (a : Answers) (q : QuizData) (s : ScoreResult) :
    (scoreMcq a q s).total_questions
      = s.total_questions + (if q.mcq.isSome then 1 else 0) := by
  unfold scoreMcq
  cases q.mcq <;> simp <;> split <;> rfl

theorem scoreMcq_correct (a : Answers) (q : QuizData) (s : ScoreResult) :
    (scoreMcq a q s).correct_answers = s.correct_answers + mcqPoint a q := by
  unfold scoreMcq mcqPoint
  cases q.mcq <;> simp <;> split <;> rfl

theorem scoreTrueFalse_total (a : Answers) (q : QuizData) (s : ScoreResult) :
    (scoreTrueFalse a q s).total_questions
      = s.total_questions + (if q.true_false.isSome then 1 else 0) := by
  unfold scoreTrueFalse
  cases q.true_false <;> simp <;> split <;> rfl

theorem scoreTrueFalse_correct (a : Answers) (q : QuizData) (s : ScoreResult) :
    (scoreTrueFalse a q s).correct_answers = s.correct_answers + tfPoint a q := by
  unfold scoreTrueFalse tfPoint
  cases q.true_false <;> simp <;> split <;> rfl

theorem scoreMatching_total (a : Answers) (q : QuizData) (s : ScoreResult) :
    (scoreMatching a q s).total_questions
      = s.total_questions + (if q.matching.isSome then 1 else 0) := by
  unfold scoreMatching
  cases q.matching <;> simp <;> split <;> rfl

theorem scoreMatching_correct (a : Answers) (q : QuizData) (s : ScoreResult) :
    (scoreMatching a q s).correct_answers = s.correct_answers + matchingPoint a q := by
  unfold scoreMatching matchingPoint
  cases q.matching <;> simp <;> split <;> rfl

theorem scoreFillBlank_total (a : Answers) (q : QuizData) (s : ScoreResult) :
    (scoreFillBlank a q s).total_questions
      = s.total_questions + (if q.fill_blank.isSome then 1 else 0) := by
  unfold scoreFillBlank
  cases q.fill_blank <;> simp <;> split <;> rfl

theorem scoreFillBlank_correct (a : Answers) (q : QuizData) (s : ScoreResult) :
    (scoreFillBlank a q s).correct_answers = s.correct_answers + fillPoint a q := by
  unfold scoreFillBlank fillPoint
  cases q.fill_blank <;> simp <;> split <;> rfl

theorem calculate_total (a : Answers) (q : QuizData) :
    (calculate_quiz_score a q).total_questions
      = (if q.mcq.isSome then 1 else 0) + (if q.true_false.isSome then 1 else 0)
        + (if q.matching.isSome then 1 else 0) + (if q.fill_blank.isSome then 1 else 0) := by
  show (scoreFillBlank a q (scoreMatching a q (scoreTrueFalse a q
    (scoreMcq a q initScore)))).total_questions = _
  rw [scoreFillBlank_total, scoreMatching_total, scoreTrueFalse_total, scoreMcq_total]
  simp [initScore]

theorem calculate_correct (a : Answers) (q : QuizData) :
    (calculate_quiz_score a q).correct_answers
      = mcqPoint a q + tfPoint a q + matchingPoint a q + fillPoint a q := by
  show (scoreFillBlank a q (scoreMatching a q (scoreTrueFalse a q
    (scoreMcq a q initScore)))).correct_answers = _
  rw [scoreFillBlank_correct, scoreMatching_correct, scoreTrueFalse_correct, scoreMcq_correct]
  simp [initScore]

theorem scoreTrueFalse_detail_mcq (a : Answers) (q : QuizData) (s : ScoreResult) :
    (scoreTrueFalse a q s).detailed_results.mcq = s.detailed_results.mcq := by
  unfold scoreTrueFalse
  cases q.true_false <;> simp <;> split <;> rfl

theorem scoreMatching_detail_mcq (a : Answers) (q : QuizData) (s : ScoreResult) :
    (scoreMatching a q s).detailed_results.mcq = s.detailed_results.mcq := by
  unfold scoreMatching
  cases q.matching <;> simp <;> split <;> rfl

theorem scoreFillBlank_detail_mcq (a : Answers) (q : QuizData) (s : ScoreResult) :
    (scoreFillBlank a q s).detailed_results.mcq = s.detailed_results.mcq := by
  unfold scoreFillBlank
  cases q.fill_blank <;> simp <;> split <;> rfl

theorem scoreMatching_detail_tf (a : Answers) (q : QuizData) (s : ScoreResult) :
    (scoreMatching a q s).detailed_results.true_false = s.detailed_results.true_false := by
  unfold scoreMatching
  cases q.matching <;> simp <;> split <;> rfl

theorem scoreFillBlank_detail_tf (a : Answers) (q : QuizData) (s : ScoreResult) :
    (scoreFillBlank a q s).detailed_results.true_false = s.detailed_results.true_false := by
  unfold scoreFillBlank
  cases q.fill_blank <;> simp <;> split <;> rfl

theorem scoreFillBlank_detail_matching (a : Answers) (q : QuizData) (s : ScoreResult) :
    (scoreFillBlank a q s).detailed_results.matching = s.detailed_results.matching := by
  unfold scoreFillBlank
  cases q.fill_blank <;> simp <;> split <;> rfl

theorem scoreMcq_detail_set (a : Answers) (q : QuizData) (s : ScoreResult)
    (mcq : MCQ) (h : q.mcq = some mcq) :
    (scoreMcq a q s).detailed_results.mcq
      = some (if pyLower (a.mcq.getD "") = pyLower (mcq.correct_answer.getD "")
          then ⟨true, "Correct!", none⟩
          else ⟨false, "Incorrect. The correct answer is "
                  ++ mcq.correct_answer.getD "" ++ ".",
                some (mcq.explanation.getD "")⟩) := by
  unfold scoreMcq
  rw [h]
  split <;> simp_all
  split <;> rfl

theorem scoreTrueFalse_detail_set (a : Answers) (q : QuizData) (s : ScoreResult)
    (tf : TrueFalse) (h : q.true_false = some tf) :
    (scoreTrueFalse a q s).detailed_results.true_false
      = some (if pyLower (a.true_false.getD "") = pyLower (tf.correct_answer.getD "")
          then ⟨true, "Correct!", none⟩
          else ⟨false, "Incorrect. The correct answer is "
                  ++ tf.correct_answer.getD "" ++ ".",
                some (tf.explanation.getD "")⟩) := by
  unfold scoreTrueFalse
  rw [h]
  split <;> simp_all
  split <;> rfl

theorem scoreMatching_detail_set (a : Answers) (q : QuizData) (s : ScoreResult)
    (m : Matching) (h : q.matching = some m) :
    (scoreMatching a q s).detailed_results.matching
      = some (if matchedCount (a.matching.getD []) (m.pairs.getD []) = (m.pairs.getD []).length
          then ⟨true, "Perfect matching!", none⟩
          else ⟨false, "Partially correct. You got "
                  ++ toString (matchedCount (a.matching.getD []) (m.pairs.getD [])) ++ "/"
                  ++ toString (m.pairs.getD []).length ++ " matches right.",
                some (m.explanation.getD "")⟩) := by
  unfold scoreMatching
  rw [h]
  split <;> simp_all
  split <;> rfl

theorem scoreFillBlank_detail_set (a : Answers) (q : QuizData) (s : ScoreResult)
    (fill : FillBlank) (h : q.fill_blank = some fill) :
    (scoreFillBlank a q s).detailed_results.fill_blank
      = some (if pyStrip (pyLower (a.fill_blank.getD ""))
              = pyStrip (pyLower (fill.correct_answer.getD ""))
          then ⟨true, "Correct!", none⟩
          else ⟨false, "Incorrect. The correct answer is \x27"
                  ++ fill.correct_answer.getD "" ++ "\x27.",
                some (fill.explanation.getD "")⟩) := by
  unfold scoreFillBlank
  rw [h]
  split <;> simp_all
  split <;> rfl

theorem calculate_detail_mcq (a : Answers) (q : QuizData) (mcq : MCQ) (h : q.mcq = some mcq) :
    (calculate_quiz_score a q).detailed_results.mcq
      = some (if pyLower (a.mcq.getD "") = pyLower (mcq.correct_answer.getD "")
          then ⟨true, "Correct!", none⟩
          else ⟨false, "Incorrect. The correct answer is "
                  ++ mcq.correct_answer.getD "" ++ ".",
                some (mcq.explanation.getD "")⟩) := by
  show (scoreFillBlank a q (scoreMatching a q (scoreTrueFalse a q
    (scoreMcq a q initScore)))).detailed_results.mcq = _
  rw [scoreFillBlank_detail_mcq, scoreMatching_detail_mcq, scoreTrueFalse_detail_mcq,
      scoreMcq_detail_set a q _ mcq h]

theorem calculate_detail_tf (a : Answers) (q : QuizData) (tf : TrueFalse)
    (h : q.true_false = some tf) :
    (calculate_quiz_score a q).detailed_results.true_false
      = some (if pyLower (a.true_false.getD "") = pyLower (tf.correct_answer.getD "")
          then ⟨true, "Correct!", none⟩
          else ⟨false, "Incorrect. The correct answer is "
                  ++ tf.correct_answer.getD "" ++ ".",
                some (tf.explanation.getD "")⟩) := by
  show (scoreFillBlank a q (scoreMatching a q (scoreTrueFalse a q
    (scoreMcq a q initScore)))).detailed_results.true_false = _
  rw [scoreFillBlank_detail_tf, scoreMatching_detail_tf,
      scoreTrueFalse_detail_set a q _ tf h]

theorem calculate_detail_matching (a : Answers) (q : QuizData) (m : Matching)
    (h : q.matching = some m) :
    (calculate_quiz_score a q).detailed_results.matching
      = some (if matchedCount (a.matching.getD []) (m.pairs.getD []) = (m.pairs.getD []).length
          then ⟨true, "Perfect matching!", none⟩
          else ⟨false, "Partially correct. You got "
                  ++ toString (matchedCount (a.matching.getD []) (m.pairs.getD [])) ++ "/"
                  ++ toString (m.pairs.getD []).length ++ " matches right.",
                some (m.explanation.getD "")⟩) := by
  show (scoreFillBlank a q (scoreMatching a q (scoreTrueFalse a q
    (scoreMcq a q initScore)))).detailed_results.matching = _
  rw [scoreFillBlank_detail_matching, scoreMatching_detail_set a q _ m h]

theorem calculate_detail_fill (a : Answers) (q : QuizData) (fill : FillBlank)
    (h : q.fill_blank = some fill) :
    (calculate_quiz_score a q).detailed_results.fill_blank
      = some (if pyStrip (pyLower (a.fill_blank.getD ""))
              = pyStrip (pyLower (fill.correct_answer.getD ""))
          then ⟨true, "Correct!", none⟩
          else ⟨false, "Incorrect. The correct answer is \x27"
                  ++ fill.correct_answer.getD "" ++ "\x27.",
                some (fill.explanation.getD "")⟩) := by
  show (scoreFillBlank a q (scoreMatching a q (scoreTrueFalse a q
    (scoreMcq a q initScore)))).detailed_results.fill_blank = _
  rw [scoreFillBlank_detail_set a q _ fill h]

theorem calculate_percentage (a : Answers) (q : QuizData) :
    (calculate_quiz_score a q).score_percentage
      = (if 0 < (calculate_quiz_score a q).total_questions then
          (((calculate_quiz_score a q).correct_answers : ℚ)
            / ((calculate_quiz_score a q).total_questions : ℚ)) * 100
        else 0) := by
  rfl

/-- The matching record of the spec example for claim C1:
`pairs = [{term:"A",definition:"1"},{term:"B",definition:"2"}]`. -/
def c1Quiz : QuizData :=
  { emptyQuizData with
      matching := some ⟨none, some [⟨some "A", some "1"⟩, ⟨some "B", some "2"⟩], none⟩ }

/-- The submission of the spec example for claim C1: `{"A":"1","B":"wrong"}`. -/
def c1Answers : Answers :=
  ⟨none, none, some [("A", "1"), ("B", "wrong")], none⟩

/-- C1: for every record containing a matching variant and every submitted
answer mapping, the matching variant contributes to `correct_answers`
all-or-nothing — exactly one point, and only when every pair matches —
while the mismatch feedback text reports the fractional count of matched
pairs. -/
theorem claim_C1 (a : Answers) (q : QuizData) (m : Matching) (h : q.matching = some m) :
    ((calculate_quiz_score a q).detailed_results.matching
      = some (if matchedCount (a.matching.getD []) (m.pairs.getD []) = (m.pairs.getD []).length
          then ⟨true, "Perfect matching!", none⟩
          else ⟨false, "Partially correct. You got "
                  ++ toString (matchedCount (a.matching.getD []) (m.pairs.getD [])) ++ "/"
                  ++ toString (m.pairs.getD []).length ++ " matches right.",
                some (m.explanation.getD "")⟩))
    ∧ (calculate_quiz_score a q).correct_answers
        = mcqPoint a q + tfPoint a q
          + (if matchedCount (a.matching.getD []) (m.pairs.getD []) = (m.pairs.getD []).length
             then 1 else 0)
          + fillPoint a q := by
  constructor
  · exact calculate_detail_matching a q m h
  · rw [calculate_correct]
    simp [matchingPoint, h]

/-- Witness for C1, at the spec example: one of two pairs matches, the
variant is scored incorrect, no point is awarded, and the feedback text
states "1/2". -/
theorem claim_C1_witness :
    (calculate_quiz_score c1Answers c1Quiz).detailed_results.matching
      = some ⟨false, "Partially correct. You got 1/2 matches right.", some ""⟩
    ∧ (calculate_quiz_score c1Answers c1Quiz).correct_answers = 0 := by
  have h := claim_C1 c1Answers c1Quiz
    ⟨none, some [⟨some "A", some "1"⟩, ⟨some "B", some "2"⟩], none⟩ rfl
  exact ⟨h.1.trans (by decide), h.2.trans (by decide)⟩

/-- C5: MCQ and TrueFalse submissions are compared to the stored
`correct_answer` case-insensitively, and FillBlank submissions
case-insensitively after trimming surrounding whitespace on both sides. -/
theorem claim_C5 (a : Answers) (q : QuizData) :
    (∀ mcq : MCQ, q.mcq = some mcq →
      ∃ e : DetailEntry, (calculate_quiz_score a q).detailed_results.mcq = some e
        ∧ (e.correct = true ↔ pyLower (a.mcq.getD "") = pyLower (mcq.correct_answer.getD "")))
    ∧ (∀ tf : TrueFalse, q.true_false = some tf →
      ∃ e : DetailEntry, (calculate_quiz_score a q).detailed_results.true_false = some e
        ∧ (e.correct = true
            ↔ pyLower (a.true_false.getD "") = pyLower (tf.correct_answer.getD "")))
    ∧ (∀ fill : FillBlank, q.fill_blank = some fill →
      ∃ e : DetailEntry, (calculate_quiz_score a q).detailed_results.fill_blank = some e
        ∧ (e.correct = true
            ↔ pyLower (pyStrip (a.fill_blank.getD ""))
              = pyLower (pyStrip (fill.correct_answer.getD "")))) := by
  refine ⟨?_, ?_, ?_⟩
  · intro mcq h
    refine ⟨_, calculate_detail_mcq a q mcq h, ?_⟩
    split <;> simp_all
  · intro tf h
    refine ⟨_, calculate_detail_tf a q tf h, ?_⟩
    split <;> simp_all
  · intro fill h
    rw [← pyStrip_pyLower, ← pyStrip_pyLower]
    refine ⟨_, calculate_detail_fill a q fill h, ?_⟩
    split <;> simp_all

/-- The MCQ record of the spec example for claim C5: `correct_answer = "b"`,
scored against submission `{"mcq": "B"}`. -/
def c5Quiz : QuizData :=
  { emptyQuizData with mcq := some ⟨some "Q?", some ["w", "x", "y", "z"], some "b", none⟩ }

/-- The submission of the spec example for claim C5. -/
def c5Answers : Answers :=
  ⟨some "B", none, none, none⟩

/-- Witness for C5, at the spec example: submission "B" against stored "b"
is correct and yields `score_percentage = 100`. -/
theorem claim_C5_witness :
    (∃ e : DetailEntry, (calculate_quiz_score c5Answers c5Quiz).detailed_results.mcq = some e
      ∧ e.correct = true)
    ∧ (calculate_quiz_score c5Answers c5Quiz).score_percentage = 100 := by
  obtain ⟨e, he, hiff⟩ :=
    (claim_C5 c5Answers c5Quiz).1 ⟨some "Q?", some ["w", "x", "y", "z"], some "b", none⟩ rfl
  have htot : (calculate_quiz_score c5Answers c5Quiz).total_questions = 1 := by
    rw [calculate_total]
    decide
  have hcor : (calculate_quiz_score c5Answers c5Quiz).correct_answers = 1 := by
    rw [calculate_correct]
    decide
  have hpct : (calculate_quiz_score c5Answers c5Quiz).score_percentage = 100 := by
    rw [calculate_percentage, htot, hcor]
    norm_num
  exact ⟨⟨e, he, hiff.mpr (by decide)⟩, hpct⟩

/-- C6: a record with no variants present is scored with
`total_questions = 0` and `score_percentage = 0`; the percentage division
is guarded and never executed in that case. -/
theorem claim_C6 (a : Answers) (q : QuizData) (h1 : q.mcq = none) (h2 : q.true_false = none)
    (h3 : q.matching = none) (h4 : q.fill_blank = none) :
    (calculate_quiz_score a q).total_questions = 0
    ∧ (calculate_quiz_score a q).score_percentage = 0 := by
  have ht : (calculate_quiz_score a q).total_questions = 0 := by
    rw [calculate_total]
    simp [h1, h2, h3, h4]
  refine ⟨ht, ?_⟩
  rw [calculate_percentage, ht]
  simp

/-- Witness for C6: the variant-free record scores 0 of 0. -/
theorem claim_C6_witness :
    (calculate_quiz_score ⟨none, none, none, none⟩ emptyQuizData).total_questions = 0
    ∧ (calculate_quiz_score ⟨none, none, none, none⟩ emptyQuizData).score_percentage = 0 :=
  claim_C6 ⟨none, none, none, none⟩ emptyQuizData rfl rfl rfl rfl

/-- A matching record whose single stored definition is "Paris", for
claim C10. -/
def c10Quiz : QuizData :=
  { emptyQuizData with matching := some ⟨none, some [⟨some "A", some "Paris"⟩], none⟩ }

/-- A submission differing from the stored definition only in letter case. -/
def c10Answers : Answers :=
  ⟨none, none, some [("A", "paris")], none⟩

/-- C10: matching pairs are compared by exact, case-sensitive, untrimmed
string equality — a submission differing only in letter case is counted as
not matched — and a matching variant with an empty `pairs` list is scored
correct and awards its point for every submission. -/
theorem claim_C10 :
    ((calculate_quiz_score c10Answers c10Quiz).detailed_results.matching
       = some ⟨false, "Partially correct. You got 0/1 matches right.", some ""⟩)
    ∧ (∀ (a : Answers) (q : QuizData) (m : Matching),
        q.matching = some m → m.pairs = some [] →
        (calculate_quiz_score a q).detailed_results.matching
          = some ⟨true, "Perfect matching!", none⟩
        ∧ (calculate_quiz_score a q).correct_answers
            = mcqPoint a q + tfPoint a q + 1 + fillPoint a q) := by
  constructor
  · have h := calculate_detail_matching c10Answers c10Quiz
      ⟨none, some [⟨some "A", some "Paris"⟩], none⟩ rfl
    exact h.trans (by decide)
  · intro a q m hm hp
    constructor
    · have h := calculate_detail_matching a q m hm
      rw [hp] at h
      simpa [matchedCount] using h
    · rw [calculate_correct]
      simp [matchingPoint, hm, hp, matchedCount]

/-- Witness for C10: a matching variant with an empty `pairs` list is
scored correct and contributes one point for an arbitrary submission. -/
theorem claim_C10_witness :
    (calculate_quiz_score ⟨none, none, some [("X", "y")], none⟩
        { emptyQuizData with matching := some ⟨none, some [], none⟩ }).detailed_results.matching
      = some ⟨true, "Perfect matching!", none⟩
    ∧ (calculate_quiz_score ⟨none, none, some [("X", "y")], none⟩
        { emptyQuizData with matching := some ⟨none, some [], none⟩ }).correct_answers = 1 := by
  have h := claim_C10.2 ⟨none, none, some [("X", "y")], none⟩
    { emptyQuizData with matching := some ⟨none, some [], none⟩ } ⟨none, some [], none⟩ rfl rfl
  exact ⟨h.1, h.2.trans (by decide)⟩

/-- The record of the spec example for claim C4: topic and difficulty
present, an MCQ with all keys but only 3 options, no other variant. -/
def c4Quiz : QuizData :=
  { emptyQuizData with
      topic := some "Topic",
      difficulty := some "Beginner",
      mcq := some ⟨some "Q?", some ["a", "b", "c"], some "a", none⟩ }

/-- A record lacking `difficulty`, for the C4 witness. -/
def c4NoDiff : QuizData :=
  { emptyQuizData with
      topic := some "Topic",
      mcq := some ⟨some "Q?", some ["a", "b", "c", "d"], some "a", none⟩ }

/-- C4: a record is invalid exactly when `topic` is missing, `difficulty`
is missing, or no variant is present; a missing `difficulty` contributes an
error entry referencing it; MCQ structural defects only warn, so a record
with topic, difficulty and a 3-option MCQ is valid with a single warning
about the option count. -/
theorem claim_C4 :
    (∀ q : QuizData, (validate_quiz_structure q).is_valid = false ↔
        (q.topic = none ∨ q.difficulty = none ∨
          (q.mcq = none ∧ q.true_false = none ∧ q.matching = none ∧ q.fill_blank = none)))
    ∧ (∀ q : QuizData, q.difficulty = none →
        "Missing required field: difficulty" ∈ (validate_quiz_structure q).errors)
    ∧ validate_quiz_structure c4Quiz
        = ⟨true, [], ["MCQ should have exactly 4 options"]⟩ := by
  refine ⟨?_, ?_, by decide⟩
  · intro q
    simp only [validate_quiz_structure]
    cases q.topic <;> cases q.difficulty <;> simp <;> tauto
  · intro q h
    simp [validate_quiz_structure, h]

/-- Witness for C4, at the spec example inputs: the 3-option record is
valid with the option-count warning, and the record lacking `difficulty`
is invalid with an error referencing it. -/
theorem claim_C4_witness :
    validate_quiz_structure c4Quiz = ⟨true, [], ["MCQ should have exactly 4 options"]⟩
    ∧ (validate_quiz_structure c4NoDiff).is_valid = false
    ∧ "Missing required field: difficulty" ∈ (validate_quiz_structure c4NoDiff).errors := by
  refine ⟨claim_C4.2.2, ?_, claim_C4.2.1 c4NoDiff rfl⟩
  exact (claim_C4.1 c4NoDiff).mpr (Or.inr (Or.inl rfl))

theorem generateBatchLoop_length (gen : String → String → String → QuizData)
    (ts ds : List String) :
    ∀ (chunks : List String) (i : Nat),
      (generateBatchLoop gen ts ds i chunks).length = chunks.length := by
  intro chunks
  induction chunks with
  | nil => intro i; rfl
  | cons c cs ih => intro i; simp [generateBatchLoop, ih (i + 1)]

theorem generateBatchLoop_getD (gen : String → String → String → QuizData)
    (ts ds : List String) :
    ∀ (chunks : List String) (i j : Nat), j < chunks.length →
      (generateBatchLoop gen ts ds i chunks).getD j emptyQuizData
        = processChunk gen (i + j) (chunks.getD j "")
            (ts.getD (i + j) "General") (ds.getD (i + j) "Intermediate") := by
  intro chunks
  induction chunks with
  | nil => intro i j hj; simp at hj
  | cons c cs ih =>
    intro i j hj
    cases j with
    | zero => simp [generateBatchLoop]
    | succ j =>
      have hj' : j < cs.length := by simpa using hj
      have := ih (i + 1) j hj'
      simpa [generateBatchLoop, Nat.add_assoc, Nat.add_comm 1 j] using this

theorem generateBatchLoop_congr (gen : String → String → String → QuizData)
    (ts ts' ds ds' : List String)
    (ht : ∀ j, ts.getD j "General" = ts'.getD j "General")
    (hd : ∀ j, ds.getD j "Intermediate" = ds'.getD j "Intermediate") :
    ∀ (chunks : List String) (i : Nat),
      generateBatchLoop gen ts ds i chunks = generateBatchLoop gen ts' ds' i chunks := by
  intro chunks
  induction chunks with
  | nil => intro i; rfl
  | cons c cs ih =>
    intro i
    simp only [generateBatchLoop, ht i, hd i, ih (i + 1)]

theorem getD_replicate_self (a : String) :
    ∀ (n j : Nat), (List.replicate n a).getD j a = a := by
  intro n
  induction n with
  | zero => intro j; simp [List.getD]
  | succ n ih =>
    intro j
    cases j with
    | zero => rfl
    | succ j => simpa [List.replicate] using ih j

/-- C2: the batch has exactly one record per input chunk, in chunk order;
the record at index `i` is produced from chunk `i` with topic
`topics[i] if i < len(topics) else "General"` and difficulty
`difficulties[i] if i < len(difficulties) else "Intermediate"`; absent
topic/difficulty sequences behave like empty ones. -/
theorem claim_C2 (gen : String → String → String → QuizData)
    (chunks tops diffs : List String) :
    (generate_quiz_batch gen chunks (some tops) (some diffs)).length = chunks.length
    ∧ (∀ i, i < chunks.length →
        (generate_quiz_batch gen chunks (some tops) (some diffs)).getD i emptyQuizData
          = processChunk gen i (chunks.getD i "")
              (tops.getD i "General") (diffs.getD i "Intermediate"))
    ∧ generate_quiz_batch gen chunks none none
        = generate_quiz_batch gen chunks (some []) (some []) := by
  refine ⟨?_, ?_, ?_⟩
  · exact generateBatchLoop_length gen tops diffs chunks 0
  · intro i hi
    simpa using generateBatchLoop_getD gen tops diffs chunks 0 i hi
  · show generateBatchLoop gen (List.replicate chunks.length "General")
      (List.replicate chunks.length "Intermediate") 0 chunks
        = generateBatchLoop gen [] [] 0 chunks
    exact generateBatchLoop_congr gen _ _ _ _
      (fun j => by simp [getD_replicate_self, List.getD])
      (fun j => by simp [getD_replicate_self, List.getD]) chunks 0

/-- Witness for C2: a two-chunk batch with one topic and no difficulties;
the second record is produced with the defaults. -/
theorem claim_C2_witness :
    (generate_quiz_batch (fun _ _ _ => emptyQuizData) ["aa", "bb"]
        (some ["T"]) (some [])).length = 2
    ∧ (generate_quiz_batch (fun _ _ _ => emptyQuizData) ["aa", "bb"]
        (some ["T"]) (some [])).getD 1 emptyQuizData
      = processChunk (fun _ _ _ => emptyQuizData) 1 "bb" "General" "Intermediate" := by
  have h := claim_C2 (fun _ _ _ => emptyQuizData) ["aa", "bb"] ["T"] []
  exact ⟨h.1, h.2.1 1 (by decide)⟩

/-- C3: `generate_quiz_questions` never lets a fault escape — a failed
service call yields an error-tagged record, an unparsable reply yields a
record carrying the raw response text and the parse-error marker, and a
parsed reply is returned as the record itself. -/
theorem claim_C3 (svc : Except String String) (parse : String → Option QuizData) :
    (∀ e, svc = Except.error e →
      generate_quiz_questions svc parse
        = { emptyQuizData with error := some ("Failed to generate quiz: " ++ e) })
    ∧ (∀ raw, svc = Except.ok raw → parse raw = none →
      generate_quiz_questions svc parse
        = { emptyQuizData with raw_content := some raw,
                               error := some "Failed to parse JSON" })
    ∧ (∀ raw q, svc = Except.ok raw → parse raw = some q →
      generate_quiz_questions svc parse = q) := by
  refine ⟨?_, ?_, ?_⟩
  · intro e he
    subst he
    rfl
  · intro raw hr hp
    subst hr
    simp [generate_quiz_questions, hp]
  · intro raw q hr hp
    subst hr
    simp [generate_quiz_questions, hp]

/-- Witness for C3: a failed service call and an unparsable reply each
produce the corresponding error-tagged record. -/
theorem claim_C3_witness :
    generate_quiz_questions (Except.error "boom") (fun _ => none)
      = { emptyQuizData with error := some "Failed to generate quiz: boom" }
    ∧ generate_quiz_questions (Except.ok "not json") (fun _ => none)
      = { emptyQuizData with raw_content := some "not json",
                             error := some "Failed to parse JSON" } :=
  ⟨(claim_C3 (Except.error "boom") (fun _ => none)).1 "boom" rfl,
   (claim_C3 (Except.ok "not json") (fun _ => none)).2.1 "not json" rfl rfl⟩

/-- Concatenation of a list of document sections. -/
def joinStrings : List String → String
  | [] => ""
  | s :: rest => s ++ joinStrings rest

theorem mdWriteLoop_eq :
    ∀ (entries : List BatchEntry) (i : Nat) (acc : String),
      mdWriteLoop i acc entries = acc ++ joinStrings (mdSections i entries) := by
  intro entries
  induction entries with
  | nil => intro i acc; simp [mdWriteLoop, mdSections, joinStrings]
  | cons e rest ih =>
    intro i acc
    simp only [mdWriteLoop, mdSections, joinStrings, ih (i + 1), String.append_assoc]

theorem mdSections_length :
    ∀ (entries : List BatchEntry) (i : Nat), (mdSections i entries).length = entries.length := by
  intro entries
  induction entries with
  | nil => intro i; rfl
  | cons e rest ih => intro i; simp [mdSections, ih (i + 1)]

theorem mdSections_getD :
    ∀ (entries : List BatchEntry) (i j : Nat), j < entries.length →
      (mdSections i entries).getD j ""
        = mdEntrySection (i + j) (entries.getD j BatchEntry.nonDict) := by
  intro entries
  induction entries with
  | nil => intro i j hj; simp at hj
  | cons e rest ih =>
    intro i j hj
    cases j with
    | zero => simp [mdSections]
    | succ j =>
      have hj' : j < rest.length := by simpa using hj
      have := ih (i + 1) j hj'
      simpa [mdSections, Nat.add_assoc, Nat.add_comm 1 j] using this

/-- C7: the markdown report is the fixed heading followed by exactly one
section per batch entry in input order; a non-dictionary entry's section is
the "Invalid Quiz" placeholder; a well-formed record's section renders the
variant blocks in the fixed order MCQ, TrueFalse, Matching, FillBlank; and
the structured JSON export is an array with one element per record. -/
theorem claim_C7 (entries : List BatchEntry) (records : List QuizData) :
    export_quiz_to_markdown entries
      = "# Generated Quiz\n\n" ++ joinStrings (mdSections 0 entries)
    ∧ (mdSections 0 entries).length = entries.length
    ∧ (∀ i, i < entries.length → entries.getD i BatchEntry.nonDict = BatchEntry.nonDict →
        (mdSections 0 entries).getD i "" = mdInvalidSection i)
    ∧ (∀ i q, i < entries.length →
        entries.getD i BatchEntry.nonDict = BatchEntry.dict q → q ≠ emptyQuizData →
        (mdSections 0 entries).getD i ""
          = "## Quiz " ++ toString (i + 1) ++ "\n\n"
            ++ "**Topic:** " ++ q.topic.getD "N/A" ++ "\n"
            ++ "**Difficulty:** " ++ q.difficulty.getD "N/A" ++ "\n\n"
            ++ mdMcqBlock q ++ mdTfBlock q ++ mdMatchingBlock q ++ mdFillBlock q
            ++ "---\n\n")
    ∧ (∃ l, export_quiz_to_json records = JsonVal.arr l ∧ l.length = records.length) := by
  refine ⟨mdWriteLoop_eq entries 0 "# Generated Quiz\n\n", mdSections_length entries 0,
    ?_, ?_, ⟨records.map quizToJson, rfl, by simp⟩⟩
  · intro i hi he
    rw [mdSections_getD entries 0 i hi, he]
    simp [mdEntrySection]
  · intro i q hi he hq
    rw [mdSections_getD entries 0 i hi, he]
    simp [mdEntrySection, hq, mdQuizSection]

/-- A well-formed record for the C7 witness. -/
def c7Quiz : QuizData :=
  { emptyQuizData with
      topic := some "Rivers",
      difficulty := some "Beginner",
      true_false := some ⟨some "The Nile is a river.", some "True", none⟩ }

/-- Witness for C7, at the spec example: one well-formed record plus one
non-object entry give a report of exactly two sections, the second the
"Invalid Quiz" placeholder, and a structured export of length two. -/
theorem claim_C7_witness :
    (mdSections 0 [BatchEntry.dict c7Quiz, BatchEntry.nonDict]).length = 2
    ∧ (mdSections 0 [BatchEntry.dict c7Quiz, BatchEntry.nonDict]).getD 1 ""
        = mdInvalidSection 1
    ∧ (∃ l, export_quiz_to_json [c7Quiz, emptyQuizData] = JsonVal.arr l ∧ l.length = 2) := by
  have h := claim_C7 [BatchEntry.dict c7Quiz, BatchEntry.nonDict] [c7Quiz, emptyQuizData]
  exact ⟨h.2.1, h.2.2.1 1 (by decide) rfl, h.2.2.2.2⟩

/-- C8 counterexample: with the directory created and both guarded exports
having reported booleans, a failure of the unguarded summary-artifact write
propagates out of `create_quiz_package` as an exception instead of being
reported as a boolean or log entry. -/
theorem claim_C8_cex :
    create_quiz_package (Except.ok ()) true true (Except.error "disk full") "quiz_exports"
      = Except.error "disk full" := rfl

/-- C8 (amended): failures of the structured-export and report writes are
reported as booleans and never propagate; a directory-creation failure or a
summary-write failure propagates; on success the output directory path is
returned. -/
theorem claim_C8 (jsonWriteOk mdWriteOk : Bool) (dir : String) :
    create_quiz_package (Except.ok ()) jsonWriteOk mdWriteOk (Except.ok ()) dir
      = Except.ok dir
    ∧ (∀ e jo mo s, create_quiz_package (Except.error e) jo mo s dir = Except.error e)
    ∧ (∀ e jo mo, create_quiz_package (Except.ok ()) jo mo (Except.error e) dir
        = Except.error e) :=
  ⟨rfl, fun _ _ _ _ => rfl, fun _ _ _ => rfl⟩

/-- Witness for C8: both guarded artifact writes failing (booleans `false`)
still yields the output directory path. -/
theorem claim_C8_witness :
    create_quiz_package (Except.ok ()) false false (Except.ok ()) "quiz_exports"
      = Except.ok "quiz_exports" :=
  (claim_C8 false false "quiz_exports").1

theorem consFirst_flatten (c : Char) (ps : List (List Char)) :
    (consFirst c ps).flatten = c :: ps.flatten := by
  cases ps <;> simp [consFirst]

theorem isPrefixOf_append_drop (sep : List Char) :
    ∀ l : List Char, sep.isPrefixOf l → sep ++ l.drop sep.length = l := by
  induction sep with
  | nil => intro l _; simp
  | cons c s ih =>
    intro l h
    match l with
    | [] => simp [List.isPrefixOf] at h
    | c2 :: t =>
      simp only [List.isPrefixOf, Bool.and_eq_true, beq_iff_eq] at h
      obtain ⟨hc, ht⟩ := h
      subst hc
      simp only [List.cons_append, List.length_cons, List.drop_succ_cons]
      rw [ih t ht]

theorem splitOnSep_flatten (sep : List Char) (l : List Char) :
    (splitOnSep sep l).flatten = l := by
  generalize hn : l.length = n
  induction n using Nat.strong_induction_on generalizing l with
  | _ n ih =>
    match l with
    | [] => simp [splitOnSep]
    | c :: cs =>
      rw [splitOnSep]
      split
      · rename_i h
        obtain ⟨hne, hpre⟩ := h
        have htt : sep ++ (c :: cs).drop sep.length = c :: cs :=
          isPrefixOf_append_drop sep (c :: cs) hpre
        have hlt : ((c :: cs).drop sep.length).length < n := by
          subst hn
          simp only [List.length_drop, List.length_cons]
          have := List.length_pos.mpr hne
          omega
        rw [List.flatten_cons, ih _ hlt _ rfl, htt]
      · rw [consFirst_flatten]
        have hlt : cs.length < n := by
          subst hn
          simp
        rw [ih cs.length hlt cs rfl]

theorem windowSplit_flatten (csize : Nat) (l : List Char) :
    (windowSplit csize l).flatten = l := by
  generalize hn : l.length = n
  induction n using Nat.strong_induction_on generalizing l with
  | _ n ih =>
    rw [windowSplit]
    split
    · rename_i h
      simp [h]
    · split
      · simp
      · rename_i hne hcs
        have hlt : (l.drop csize).length < n := by
          subst hn
          simp only [List.length_drop]
          have := List.length_pos.mpr hne
          omega
        rw [List.flatten_cons, ih _ hlt _ rfl, List.take_append_drop]

theorem flatten_map_flatten (g : List Char → List (List Char))
    (hg : ∀ p, (g p).flatten = p) :
    ∀ ps : List (List Char), ((ps.map g).flatten).flatten = ps.flatten := by
  intro ps
  induction ps with
  | nil => rfl
  | cons p ps ih => simp [List.flatten_append, hg p, ih]

theorem recSplit_flatten (csize : Nat) :
    ∀ (seps : List (List Char)) (l : List Char), (recSplit csize seps l).flatten = l := by
  intro seps
  induction seps with
  | nil => intro l; exact windowSplit_flatten csize l
  | cons sep rest ih =>
    intro l
    rw [recSplit]
    split
    · simp
    · rw [flatten_map_flatten _ ih, splitOnSep_flatten]

theorem mergeFrags_cover (csize coverlap : Nat) :
    ∀ (fs : List (List Char)) (acc : List Char) (c : Char),
      c ∈ acc ++ fs.flatten → ∃ ch ∈ mergeFrags csize coverlap acc fs, c ∈ ch := by
  intro fs
  induction fs with
  | nil =>
    intro acc c hc
    simp only [List.flatten_nil, List.append_nil] at hc
    have hne : acc ≠ [] := List.ne_nil_of_mem hc
    rw [mergeFrags, if_neg hne]
    exact ⟨acc, by simp, hc⟩
  | cons f fs ih =>
    intro acc c hc
    rw [mergeFrags]
    split
    · apply ih
      simp only [List.flatten_cons] at hc
      simpa [List.append_assoc] using hc
    · simp only [List.flatten_cons, List.mem_append] at hc
      rcases hc with hacc | hf | hfl
      · exact ⟨acc, by simp, hacc⟩
      · obtain ⟨ch, hch, hcch⟩ := ih (takeLast coverlap acc ++ f) c
          (by simp only [List.mem_append]; tauto)
        exact ⟨ch, by simp [hch], hcch⟩
      · obtain ⟨ch, hch, hcch⟩ := ih (takeLast coverlap acc ++ f) c
          (by simp only [List.mem_append]; tauto)
        exact ⟨ch, by simp [hch], hcch⟩

/-- C9: for every source text, `chunk_size > 0` and
`0 ≤ chunk_overlap < chunk_size`, every character of the text appears in at
least one chunk produced by the chunker. -/
theorem claim_C9 (text : List Char) (chunk_size chunk_overlap : Nat)
    (hsize : 0 < chunk_size) (hover : chunk_overlap < chunk_size) :
    ∀ c ∈ text, ∃ chunk ∈ chunk_text text chunk_size chunk_overlap, c ∈ chunk := by
  intro c hc
  unfold chunk_text
  apply mergeFrags_cover
  rw [List.nil_append, recSplit_flatten]
  exact hc

/-- Witness for C9: on the text "hi" with unit chunks and no overlap, the
character h appears in some chunk. -/
theorem claim_C9_witness :
    ∃ chunk ∈ chunk_text ['h', 'i'] 1 0, 'h' ∈ chunk :=
  claim_C9 ['h', 'i'] 1 0 (by decide) (by decide) 'h' (by decide)

end QuizGen
